import Mathlib

/-!
Formal model of the jing-uninstall core modules (src/core/cleaner.py,
src/core/residue_scan.py, src/core/scanner.py, src/core/uninstaller.py,
src/utils/app_name_resolver.py).

The Python code is embedded shallowly: every pure computation of the source
is translated into an executable Lean definition, and every interaction with
the operating system (os.path predicates, os.walk listings, subprocess exit
codes, parsed command output) is supplied through an explicit environment
record, so that one Lean function application corresponds to one Python call
executed against a fixed filesystem/process state.  Python strings are
modelled by Lean strings, with the handful of Python string primitives the
code uses re-implemented by structural recursion over the character list so
that all definitions evaluate inside the kernel.
-/

namespace Jing

/-- Python str.lower() (character-wise; the source only feeds it ASCII). -/
def pyLower (s : String) : String := ⟨s.data.map Char.toLower⟩

/-- Python str.upper() (character-wise; the source only feeds it ASCII). -/
def pyUpper (s : String) : String := ⟨s.data.map Char.toUpper⟩

/-- Python s.replace(old, new) for a single-character pattern old; every
replace performed by the modelled modules has a one-character pattern. -/
def pyReplaceChar (s : String) (old : Char) (new : String) : String :=
  ⟨s.data.flatMap (fun c => if c = old then new.data else [c])⟩

/-- Helper for substring containment over character lists. -/
def containsSubAux (needle : List Char) : List Char → Bool
  | [] => needle.isEmpty
  | c :: rest => needle.isPrefixOf (c :: rest) || containsSubAux needle rest

/-- Python substring test: needle in hay. -/
def pyIn (needle hay : String) : Bool := containsSubAux needle.data hay.data

/-- Helper for single-character splitting (Python s.split(sep) keeps empty
fields). -/
def splitChAux (sep : Char) : List Char → List Char → List (List Char)
  | [], acc => [acc.reverse]
  | c :: rest, acc =>
    if c = sep then acc.reverse :: splitChAux sep rest []
    else splitChAux sep rest (c :: acc)

/-- Python s.split(sep) for a one-character separator. -/
def pySplitCh (s : String) (sep : Char) : List String :=
  (splitChAux sep s.data []).map (fun l => ⟨l⟩)

/-- Helper for whitespace splitting. -/
def splitWsAux : List Char → List Char → List (List Char)
  | [], acc => [acc.reverse]
  | c :: rest, acc =>
    if c.isWhitespace then acc.reverse :: splitWsAux rest []
    else splitWsAux rest (c :: acc)

/-- Python s.split() with no argument: split on whitespace runs and drop
empty fields. -/
def pySplitWs (s : String) : List String :=
  ((splitWsAux s.data []).filter (fun l => !l.isEmpty)).map (fun l => ⟨l⟩)

/-- Python s.startswith(pre). -/
def pyStartsWith (s pre : String) : Bool := pre.data.isPrefixOf s.data

/-- Python s.endswith(post). -/
def pyEndsWith (s post : String) : Bool := post.data.isSuffixOf s.data

/-- Python s.isdigit() restricted to ASCII digits. -/
def pyIsDigit (s : String) : Bool := !s.data.isEmpty && s.data.all Char.isDigit

/-- Python int(s) for a digit string. -/
def digitsToNat (s : String) : Nat :=
  s.data.foldl (fun n c => n * 10 + (c.toNat - 48)) 0

/-- Helper for Python str.title(): the Bool argument records whether the
previous character was cased (a letter). -/
def titleAux : List Char → Bool → List Char
  | [], _ => []
  | c :: rest, prevCased =>
    if c.isAlpha then
      (if prevCased then c.toLower else c.toUpper) :: titleAux rest true
    else c :: titleAux rest false

/-- Python str.title() restricted to ASCII letters as the cased characters. -/
def pyTitle (s : String) : String := ⟨titleAux s.data false⟩

/-- os.path.join(dir, name) for a name without a leading slash. -/
def pyJoin (dir name : String) : String :=
  if pyEndsWith dir "/" then dir ++ name else dir ++ "/" ++ name

/-- Strict lexicographic comparison of character lists by code point, the
order Python uses when comparing strings. -/
def charListLt : List Char → List Char → Bool
  | [], [] => false
  | [], _ :: _ => true
  | _ :: _, [] => false
  | a :: as, b :: bs => if a < b then true else if b < a then false else charListLt as bs

/-- Reflexive lexicographic comparison of character lists. -/
def charListLe : List Char → List Char → Bool
  | [], _ => true
  | _ :: _, [] => false
  | a :: as, b :: bs => if a < b then true else if b < a then false else charListLe as bs

/-- Python string strict comparison s < t. -/
def strLtB (s t : String) : Bool := charListLt s.data t.data

/-- Python string comparison s <= t. -/
def strLeB (s t : String) : Bool := charListLe s.data t.data

/-! ## src/core/residue_scan.py -/

/-- ResidueType enum of residue_scan.py. -/
inductive ResidueType
  | CONFIG
  | LOG
  | CACHE
  | DATA
  | OTHER
deriving DecidableEq

/-- The .value string of each ResidueType member. -/
def ResidueType.value : ResidueType → String
  | .CONFIG => "配置文件"
  | .LOG => "日志文件"
  | .CACHE => "缓存文件"
  | .DATA => "数据文件"
  | .OTHER => "其他"

/-- ResidueFile dataclass of residue_scan.py. -/
structure ResidueFile where
  path : String
  size : Nat
  size_str : String
  type : ResidueType
  is_selected : Bool := true
  is_safe_to_delete : Bool := true
deriving DecidableEq

/-- One (dirpath, dirnames, filenames) triple yielded by os.walk. -/
structure WalkEntry where
  root : String
  dirs : List String
  files : List String

/-- Filesystem facts the residue scanner reads from the operating system:
os.path predicates, os.walk listings (with followlinks=False, as in the
source), whether os.path.getsize succeeds on a path, the reported size, and
the float-based display formatter _format_size, which is treated as an
opaque environment function because no modelled property inspects the
rendered string. -/
structure FsEnv where
  pathExists : String → Bool
  walk : String → List WalkEntry
  isfile : String → Bool
  islink : String → Bool
  getsizeOk : String → Bool
  getsize : String → Nat
  fmtSize : Nat → String

/-- ResidueScanner._generate_keywords: the raw identifier, its separator
stripped variants, case variants, the space-substituted display variant and
its case variants, deduplicated.  Python builds the set with list(set(...)),
whose iteration order is unspecified; only membership and the absence of
duplicates are meaningful, which List.dedup preserves. -/
def generate_keywords (package_name : String) : List String :=
  let keywords := [package_name,
    pyReplaceChar package_name '-' "",
    pyReplaceChar package_name '_' "",
    pyLower package_name,
    pyUpper package_name]
  let display_name := pyReplaceChar (pyReplaceChar package_name '-' " ") '_' " "
  let keywords := keywords ++ [display_name, pyLower display_name, pyUpper display_name]
  keywords.dedup

/-- ResidueScanner._is_match: case-insensitive substring containment of the
entry name against every keyword. -/
def is_match (keywords : List String) (name : String) : Bool :=
  keywords.any (fun k => pyIn (pyLower k) (pyLower name))

/-- ResidueScanner._get_residue_type. -/
def get_residue_type (category path : String) : ResidueType :=
  if pyIn "config" category || pyIn "/etc/" path || pyIn ".config" path then .CONFIG
  else if pyIn "log" category || pyIn "/log/" path || pyEndsWith (pyLower path) ".log" then .LOG
  else if pyIn "cache" category || pyIn "/cache/" path then .CACHE
  else if pyIn "data" category then .DATA
  else .OTHER

/-- The static deny-list of ResidueScanner._is_safe_to_delete. -/
def cautionPaths : List String := ["/etc/systemd", "/etc/init.d", "/etc/rc", "/usr/local/bin"]

/-- ResidueScanner._is_safe_to_delete (the category branches of the source
all return True and are kept as written). -/
def is_safe_to_delete (category path : String) : Bool :=
  if cautionPaths.any (fun u => pyStartsWith path u) then false
  else if category = "system_log" || category = "user_cache" then true
  else if category = "user_config" then true
  else true

/-- Size contribution of one filename from one os.walk entry inside
ResidueScanner._get_dir_size: regular non-symlink files contribute their
size; a size-read error (modelled by getsizeOk) falls into the bare except
and contributes nothing. -/
def fileContrib (env : FsEnv) (dirpath filename : String) : Nat :=
  let filepath := pyJoin dirpath filename
  if env.isfile filepath && !env.islink filepath && env.getsizeOk filepath then
    env.getsize filepath
  else 0

/-- ResidueScanner._get_dir_size applied to a given os.walk output. -/
def get_dir_size_from (env : FsEnv) (entries : List WalkEntry) : Nat :=
  (entries.map (fun e => (e.files.map (fileContrib env e.root)).sum)).sum

/-- ResidueScanner._get_dir_size. -/
def get_dir_size (env : FsEnv) (dir_path : String) : Nat :=
  get_dir_size_from env (env.walk dir_path)

/-- The ResidueFile built for a matching directory name in _scan_path. -/
def mkDirResidue (env : FsEnv) (category dir_path : String) : ResidueFile :=
  { path := dir_path
    size := get_dir_size env dir_path
    size_str := env.fmtSize (get_dir_size env dir_path)
    type := get_residue_type category dir_path
    is_selected := true
    is_safe_to_delete := is_safe_to_delete category dir_path }

/-- The ResidueFile built for a matching file name in _scan_path; the
try/except around os.path.getsize defaults the size to 0. -/
def mkFileResidue (env : FsEnv) (category file_path : String) : ResidueFile :=
  { path := file_path
    size := if env.getsizeOk file_path then env.getsize file_path else 0
    size_str := env.fmtSize (if env.getsizeOk file_path then env.getsize file_path else 0)
    type := get_residue_type category file_path
    is_selected := true
    is_safe_to_delete := is_safe_to_delete category file_path }

/-- ResidueScanner._scan_path: for every os.walk triple, matching directory
names then matching file names are appended. -/
def scan_path (env : FsEnv) (keywords : List String) (base_path category : String) :
    List ResidueFile :=
  (env.walk base_path).flatMap (fun e =>
    ((e.dirs.filter (is_match keywords)).map (fun d => mkDirResidue env category (pyJoin e.root d)))
    ++ ((e.files.filter (is_match keywords)).map (fun f => mkFileResidue env category (pyJoin e.root f))))

/-- SCAN_PATHS of residue_scan.py in dict insertion order, with
os.path.expanduser resolved against the given home directory. -/
def scanPathsTable (home : String) : List (String × List String) :=
  [("system_config", ["/etc"]),
   ("system_log", ["/var/log"]),
   ("system_data", ["/var/lib", "/opt"]),
   ("user_config", [home ++ "/.config"]),
   ("user_cache", [home ++ "/.cache"]),
   ("user_data", [home ++ "/.local/share", home ++ "/.local/state"]),
   ("usr_local", ["/usr/local"])]

/-- Sort key order used by ResidueScanner.scan: Python list.sort with
key=(x.type.value, x.path), i.e. lexicographic on the pair. -/
def residue_le (a b : ResidueFile) : Bool :=
  strLtB a.type.value b.type.value ||
    (a.type.value = b.type.value && strLeB a.path b.path)

/-- Collection phase of ResidueScanner.scan: generate keywords from the
identifier and walk every existing configured root in table order. -/
def residueCollect (env : FsEnv) (home package_name : String) : List ResidueFile :=
  let keywords := generate_keywords package_name
  (scanPathsTable home).flatMap (fun cp =>
    cp.2.flatMap (fun p => if env.pathExists p then scan_path env keywords p cp.1 else []))

/-- ResidueScanner.scan: collect matches, then sort by (type.value, path).
Python list.sort is a stable ascending sort, modelled by insertion sort
under the same order. -/
def residueScan (env : FsEnv) (home package_name : String) : List ResidueFile :=
  List.insertionSort (fun a b => residue_le a b = true) (residueCollect env home package_name)

/-! ## src/core/cleaner.py -/

/-- Outcome of a direct deletion attempt (os.remove or shutil.rmtree):
success, PermissionError, or any other exception. -/
inductive DelOutcome
  | ok
  | permError
  | otherError
deriving DecidableEq

/-- One deletion-related operation attempted by Cleaner._delete_path:
os.remove, shutil.rmtree, or one of the two pkexec escalation commands. -/
inductive CleanAction
  | unlink (p : String)
  | rmtree (p : String)
  | pkexecRmF (p : String)
  | pkexecRmRf (p : String)
deriving DecidableEq

/-- Environment read by Cleaner._delete_path: os.path predicates,
os.access(path, W_OK), the outcome of the direct deletion attempt, and
whether the pkexec rm subprocess exits with code 0.  The pkexec subprocess
is modelled as always completing within its timeout. -/
structure DeleteEnv where
  pathExists : String → Bool
  isfile : String → Bool
  islink : String → Bool
  isdir : String → Bool
  writable : String → Bool
  direct : String → DelOutcome
  pkexecOk : String → Bool

/-- Cleaner._delete_path: returns the Python truthiness of the returned
value together with the trace of attempted operations.  A path that exists
but is neither file, link nor directory falls off the end of the Python
function, returning None, whose truthiness is false.  A PermissionError
raised by the direct attempt lands in the except handler, which re-checks
os.path.isfile and escalates exactly once. -/
def delete_path (env : DeleteEnv) (path : String) : Bool × List CleanAction :=
  if !env.pathExists path then (true, [])
  else if env.isfile path || env.islink path then
    if env.writable path then
      match env.direct path with
      | .ok => (true, [.unlink path])
      | .permError =>
        if env.isfile path then (env.pkexecOk path, [.unlink path, .pkexecRmF path])
        else (env.pkexecOk path, [.unlink path, .pkexecRmRf path])
      | .otherError => (false, [.unlink path])
    else (env.pkexecOk path, [.pkexecRmF path])
  else if env.isdir path then
    if env.writable path then
      match env.direct path with
      | .ok => (true, [.rmtree path])
      | .permError =>
        if env.isfile path then (env.pkexecOk path, [.rmtree path, .pkexecRmF path])
        else (env.pkexecOk path, [.rmtree path, .pkexecRmRf path])
      | .otherError => (false, [.rmtree path])
    else (env.pkexecOk path, [.pkexecRmRf path])
  else (false, [])

/-- Result record of Cleaner.clean: the returned triple plus the emitted
progress events, emitted error messages, and the filesystem operations
attempted through _delete_path. -/
structure CleanResult where
  success : Bool
  deleted_files : Nat
  deleted_size : Nat
  progress : List (String × Nat)
  errors : List String
  actions : List CleanAction
deriving DecidableEq

/-- Loop body of Cleaner.clean over the selected files; i is the index of
the current file among the selected ones and n their total count.  The
int((i / total) * 100) float truncation equals floor division for the
operand ranges involved.  _delete_path traps every exception it can raise
itself, so the surrounding try/except in clean never fires in this model. -/
def cleanLoop (env : DeleteEnv) (n : Nat) : List ResidueFile → Nat → CleanResult → CleanResult
  | [], _, acc => acc
  | f :: rest, i, acc =>
    let pr := acc.progress ++ [("正在删除：" ++ f.path, i * 100 / n)]
    let d := delete_path env f.path
    let acc' :=
      if d.1 then
        { acc with
          progress := pr
          actions := acc.actions ++ d.2
          deleted_files := acc.deleted_files + 1
          deleted_size := acc.deleted_size + f.size }
      else
        { acc with
          progress := pr
          actions := acc.actions ++ d.2
          errors := acc.errors ++ ["无法删除：" ++ f.path] }
    cleanLoop env n rest (i + 1) acc'

/-- Cleaner.clean: filter the selection, return (True, 0, 0) immediately on
an empty selection, otherwise delete each selected file in turn, reporting
per-file failures through the error callback, and always return True. -/
def cleanFiles (env : DeleteEnv) (files : List ResidueFile) : CleanResult :=
  let selected := files.filter (fun f => f.is_selected)
  if selected.length = 0 then
    { success := true, deleted_files := 0, deleted_size := 0,
      progress := [], errors := [], actions := [] }
  else
    let start : CleanResult :=
      { success := true, deleted_files := 0, deleted_size := 0,
        progress := [("准备清理 " ++ toString selected.length ++ " 个文件...", 0)],
        errors := [], actions := [] }
    let r := cleanLoop env selected.length selected 0 start
    { r with progress := r.progress ++ [("清理完成", 100)] }

/-! ## src/core/scanner.py -/

/-- PackageSource enum of scanner.py. -/
inductive PackageSource
  | APT
  | SNAP
  | FLATPAK
  | APPIMAGE
deriving DecidableEq

/-- Package dataclass of scanner.py.  Its declared fields are exactly these;
in particular there is no app_name field. -/
structure Package where
  name : String
  display_name : String
  version : String
  size : String
  source : PackageSource
  install_date : String
  description : String
  is_selected : Bool := false
deriving DecidableEq

/-- PackageScanner.SYSTEM_PACKAGES, the static system-critical allow-list,
transcribed verbatim.  The Python set is modelled as a list; only membership
is ever consulted. -/
def SYSTEM_PACKAGES : List String :=
  ["apt", "dpkg", "systemd", "udev", "dbus", "polkit",
   "login", "passwd", "adduser", "base-files", "base-passwd",
   "xorg", "xserver", "wayland", "mesa", "libgl",
   "networkd", "networkmanager", "wpa-supplicant",
   "gdm", "gdm3", "lightdm", "sddm",
   "gnome-core", "gnome-shell", "kde-plasma-desktop",
   "python3", "python3-minimal", "libpython3",
   "bash", "coreutils", "findutils", "grep", "gzip",
   "sed", "tar", "util-linux", "lsb",
   "linux-firmware", "amd64-microcode", "intel-microcode",
   "grub", "shim",
   "libc6", "libstdc++", "libgcc", "openssl", "ca-certificates"]

/-- PackageScanner._format_package_name. -/
def format_package_name (name : String) : String :=
  pyTitle (pyReplaceChar (pyReplaceChar name '-' " ") '_' " ")

/-- External state the inventory scan reads: exit status and stdout lines of
the dpkg-query, snap list and flatpak list subprocesses, the which-probe for
the snap and flatpak tools, the install-date dictionary parsed from the dpkg
log by _get_install_dates_from_log, directory listings for the AppImage
search paths (none when os.path.exists is false or os.listdir fails), the
user's home directory, and the float-based _format_size display formatter,
treated as an opaque function because no modelled property inspects the
rendered string. -/
structure ScanEnv where
  dpkgQueryOk : Bool
  dpkgQueryLines : List String
  installDates : String → Option String
  snapAvailable : Bool
  snapListOk : Bool
  snapLines : List String
  flatpakAvailable : Bool
  flatpakListOk : Bool
  flatpakLines : List String
  appimageListing : String → Option (List String)
  home : String
  fmtSize : Nat → String

/-- Per-line body of PackageScanner._scan_apt: split on the pipe separator,
require at least 4 fields, keep only records whose status contains
"install ok installed", and drop allow-listed names when
skip_system_packages is set. -/
def scanAptLine (skip : Bool) (env : ScanEnv) (line : String) : List Package :=
  if line = "" then []
  else
    let parts := pySplitCh line '|'
    if parts.length ≥ 4 then
      let name := parts.getD 0 ""
      let version := parts.getD 1 ""
      let size_kb := if pyIsDigit (parts.getD 2 "") then digitsToNat (parts.getD 2 "") else 0
      let status := parts.getD 3 ""
      if pyIn "install ok installed" status then
        if skip && SYSTEM_PACKAGES.contains name then []
        else
          [{ name := name
             display_name := format_package_name name
             version := version
             size := env.fmtSize (size_kb * 1024)
             source := .APT
             install_date := (env.installDates name).getD "未知"
             description := "" }]
      else []
    else []

/-- PackageScanner._scan_apt. -/
def scan_apt (skip : Bool) (env : ScanEnv) : List Package :=
  if env.dpkgQueryOk then env.dpkgQueryLines.flatMap (scanAptLine skip env) else []

/-- PackageScanner._scan_snap: probe for the snap tool, then parse
whitespace-separated columns, skipping the header line. -/
def scan_snap (env : ScanEnv) : List Package :=
  if !env.snapAvailable then []
  else if !env.snapListOk then []
  else
    (env.snapLines.drop 1).flatMap (fun line =>
      if line = "" then []
      else
        let parts := pySplitWs line
        if parts.length ≥ 3 then
          [{ name := parts.getD 0 ""
             display_name := format_package_name (parts.getD 0 "")
             version := parts.getD 1 ""
             size := "未知"
             source := .SNAP
             install_date := "未知"
             description := "" }]
        else [])

/-- PackageScanner._scan_flatpak: probe for the flatpak tool, then parse
tab-separated columns; a missing version column defaults to the unknown
sentinel. -/
def scan_flatpak (env : ScanEnv) : List Package :=
  if !env.flatpakAvailable then []
  else if !env.flatpakListOk then []
  else
    env.flatpakLines.flatMap (fun line =>
      if line = "" then []
      else
        let parts := pySplitCh line '\t'
        if parts.length ≥ 1 then
          [{ name := parts.getD 0 ""
             display_name := format_package_name (parts.getD 0 "")
             version := if parts.length > 1 then parts.getD 1 "" else "未知"
             size := "未知"
             source := .FLATPAK
             install_date := "未知"
             description := "" }]
        else [])

/-- The Package(...) call inside _scan_appimage passes the keyword argument
app_name, which the Package dataclass does not declare, so evaluating the
call raises TypeError before any object is produced. -/
def mkAppimagePackage (filename filepath : String) : Except String Package :=
  .error ("TypeError: Package.__init__() got an unexpected keyword argument " ++
    "app_name (file " ++ filename ++ " at " ++ filepath ++ ")")

/-- Inner loop of _scan_appimage over one search directory's listing: the
first file whose lower-cased name ends in .appimage raises the TypeError,
landing in the per-directory except clause, which keeps whatever had been
appended so far (acc) and moves on. -/
def scanAppimageDir (search_path : String) : List String → List Package → List Package
  | [], acc => acc
  | filename :: rest, acc =>
    if pyEndsWith (pyLower filename) ".appimage" then
      match mkAppimagePackage filename (pyJoin search_path filename) with
      | .ok p => scanAppimageDir search_path rest (acc ++ [p])
      | .error _ => acc
    else scanAppimageDir search_path rest acc

/-- PackageScanner._scan_appimage: search ~/Applications, ~/.local/bin and
/opt, skipping paths that do not exist or whose listing fails. -/
def scan_appimage (env : ScanEnv) : List Package :=
  let search_paths := [env.home ++ "/Applications", env.home ++ "/.local/bin", "/opt"]
  search_paths.foldl (fun acc p =>
    match env.appimageListing p with
    | none => acc
    | some files => scanAppimageDir p files acc) []

/-- PackageScanner.scan_all: run the requested per-source scans in the fixed
APT, Snap, Flatpak, AppImage order, concatenating packages and emitting the
(message, percent) progress stream with the percent constants written in the
source.  The Python method extends self.packages and fires the progress
callback incrementally; the definition concatenates the same per-source
package contributions and progress segments in the same order, yielding the
identical final list and stream.  Returns the package list together with
the progress stream. -/
def scan_all (skip : Bool) (env : ScanEnv) (sources : Option (List PackageSource)) :
    List Package × List (String × Nat) :=
  let srcs := sources.getD [.APT, .SNAP, .FLATPAK, .APPIMAGE]
  let aptPkgs := if PackageSource.APT ∈ srcs then scan_apt skip env else []
  let aptTrace :=
    if PackageSource.APT ∈ srcs then
      [("正在扫描 APT 软件包...", 0), ("APT: " ++ toString aptPkgs.length ++ " 个软件", 25)]
    else []
  let snapPkgs := if PackageSource.SNAP ∈ srcs then scan_snap env else []
  let snapTrace :=
    if PackageSource.SNAP ∈ srcs then
      [("正在扫描 Snap 软件包...", 25), ("Snap: " ++ toString snapPkgs.length ++ " 个软件", 50)]
    else []
  let fpPkgs := if PackageSource.FLATPAK ∈ srcs then scan_flatpak env else []
  let fpTrace :=
    if PackageSource.FLATPAK ∈ srcs then
      [("正在扫描 Flatpak 软件包...", 50), ("Flatpak: " ++ toString fpPkgs.length ++ " 个软件", 75)]
    else []
  let aiPkgs := if PackageSource.APPIMAGE ∈ srcs then scan_appimage env else []
  let aiTrace :=
    if PackageSource.APPIMAGE ∈ srcs then
      [("正在扫描 AppImage 文件...", 75), ("AppImage: " ++ toString aiPkgs.length ++ " 个文件", 95)]
    else []
  let pkgs := aptPkgs ++ snapPkgs ++ fpPkgs ++ aiPkgs
  (pkgs, aptTrace ++ snapTrace ++ fpTrace ++ aiTrace ++
    [("扫描完成，共 " ++ toString pkgs.length ++ " 个软件", 100)])

/-! ## src/core/uninstaller.py (force_remove_package) -/

/-- One privileged subprocess issued by Uninstaller.force_remove_package. -/
inductive ForceAction
  | pkexecRmF (p : String)
  | pkexecRmdir (p : String)
  | dpkgForceRemove (name : String)
deriving DecidableEq

/-- External state force_remove_package reads: whether dpkg -L exits with
code 0 and its stdout lines, the os.path file/directory predicates, whether
os.listdir succeeds on a directory, and whether the listing is empty. -/
structure ForceEnv where
  dpkgListOk : Bool
  dpkgFiles : List String
  isfile : String → Bool
  isdir : String → Bool
  listdirOk : String → Bool
  listdirEmpty : String → Bool

/-- Per-path body of the deletion loop in force_remove_package: regular
files are removed with pkexec rm -f, directories with pkexec rmdir but only
when os.listdir returns an empty listing; an os.listdir failure lands in the
per-path except clause and skips the path; the pkexec exit status is ignored
and the deleted counter incremented regardless. -/
def forceStep (env : ForceEnv) (acc : Nat × List ForceAction) (filepath : String) :
    Nat × List ForceAction :=
  if env.isfile filepath then (acc.1 + 1, acc.2 ++ [.pkexecRmF filepath])
  else if env.isdir filepath then
    if !env.listdirOk filepath then acc
    else if env.listdirEmpty filepath then (acc.1 + 1, acc.2 ++ [.pkexecRmdir filepath])
    else acc
  else acc

/-- Uninstaller.force_remove_package: APT-only; list the package's owned
files with dpkg -L, delete them individually, then force-deregister the
package with dpkg --remove --force-remove-reinstreq regardless of how many
files were deleted.  Returns ((ok, message), deleted counter, subprocess
trace). -/
def force_remove_package (pkg : Package) (env : ForceEnv) :
    (Bool × String) × Nat × List ForceAction :=
  if pkg.source ≠ PackageSource.APT then
    ((false, "强制卸载仅支持 APT 包"), 0, [])
  else
    let fileStage :=
      if env.dpkgListOk then env.dpkgFiles.foldl (forceStep env) (0, []) else (0, [])
    ((true, pkg.name ++ " 已强制移除"), fileStage.1,
      fileStage.2 ++ [.dpkgForceRemove pkg.name])

/-! ## src/utils/app_name_resolver.py -/

/-- Parsed desktop-entry metadata as _parse_desktop_file returns it; only
the Name and Name[zh_CN] values participate in name resolution. -/
structure DesktopInfo where
  name : String
  name_zh : String
deriving DecidableEq

/-- Python info['name_zh'] or info['name']: the localized name unless it is
the empty (falsy) string. -/
def pickName (i : DesktopInfo) : String := if i.name_zh ≠ "" then i.name_zh else i.name

/-- Mutable state of AppNameResolver after initialization: the desktop-entry
cache keyed by lower-cased basename without the .desktop suffix, and the
per-identifier memoization cache.  Python dicts iterate in insertion order
and are modelled by association lists with distinct keys looked up by first
match. -/
structure ResolverState where
  desktop_cache : List (String × DesktopInfo)
  name_cache : List (String × String)
deriving DecidableEq

/-- Dictionary lookup on an association list. -/
def lookupA {α : Type} (l : List (String × α)) (k : String) : Option α :=
  (l.find? (fun kv => kv.1 = k)).map (fun kv => kv.2)

/-- A desktop-cache key with hyphens and underscores stripped, as computed
inside stages 3 and 4 of get_app_name. -/
def keyClean (k : String) : String := pyReplaceChar (pyReplaceChar k '-' "") '_' ""

/-- The normalized desktop name compared against in the stage-5 loop of
get_app_name: lower-cased, hyphens to spaces, underscores removed. -/
def desktopNameNorm (i : DesktopInfo) : String :=
  pyReplaceChar (pyReplaceChar (pyLower i.name) '-' " ") '_' ""

/-- Record the resolved name in the memoization cache and return it; the
identifier is absent from the cache when this runs, so the dict store is an
append. -/
def cacheAndReturn (st : ResolverState) (package_name app_name : String) :
    String × ResolverState :=
  (app_name, { st with name_cache := st.name_cache ++ [(package_name, app_name)] })

/-- AppNameResolver.get_app_name.  The dpkg -L subprocess of stage 2
together with the on-demand parse of the first listed .desktop file is
modelled by the dpkgDesktop environment function (none when the subprocess
fails, no listed file parses, or no .desktop file is listed). -/
def get_app_name (dpkgDesktop : String → Option DesktopInfo) (st : ResolverState)
    (package_name : String) : String × ResolverState :=
  match lookupA st.name_cache package_name with
  | some cached => (cached, st)
  | none =>
    let stripped := pyReplaceChar (pyReplaceChar (pyLower package_name) '-' "") '_' ""
    match lookupA st.desktop_cache stripped with
    | some info => cacheAndReturn st package_name (pickName info)
    | none =>
      match dpkgDesktop package_name with
      | some info => cacheAndReturn st package_name (pickName info)
      | none =>
        let stage3 :=
          if stripped.length ≥ 4 then
            st.desktop_cache.find? (fun kv => keyClean kv.1 = stripped)
          else none
        match stage3 with
        | some kv => cacheAndReturn st package_name (pickName kv.2)
        | none =>
          let stage4 :=
            if stripped.length ≥ 3 then
              st.desktop_cache.find? (fun kv =>
                pyIn stripped (keyClean kv.1) || pyIn (keyClean kv.1) stripped)
            else none
          match stage4 with
          | some kv => cacheAndReturn st package_name (pickName kv.2)
          | none =>
            let display_name := format_package_name package_name
            let stage5 := st.desktop_cache.find? (fun kv =>
              pyReplaceChar (pyLower display_name) ' ' "" = desktopNameNorm kv.2)
            match stage5 with
            | some kv => cacheAndReturn st package_name (pickName kv.2)
            | none => cacheAndReturn st package_name display_name

/-! ## Claim C1: Cleaner._delete_path -/

/-- An action of _delete_path that escalates through pkexec. -/
def isEscalation : CleanAction → Bool
  | .pkexecRmF _ => true
  | .pkexecRmRf _ => true
  | _ => false

/-- C1: single-path deletion treats a missing path as success; a writable
path is deleted directly (file or symlink by unlink, directory by recursive
remove); a non-writable path is escalated to a single privileged command;
and a PermissionError raised by the direct attempt triggers exactly one
escalation, whose exit status decides the result. -/
theorem c1_delete_path (env : DeleteEnv) (p : String) :
    (env.pathExists p = false → delete_path env p = (true, [])) ∧
    (env.pathExists p = true → (env.isfile p || env.islink p) = true →
      env.writable p = true → env.direct p = .ok →
      delete_path env p = (true, [.unlink p])) ∧
    (env.pathExists p = true → (env.isfile p || env.islink p) = false →
      env.isdir p = true → env.writable p = true → env.direct p = .ok →
      delete_path env p = (true, [.rmtree p])) ∧
    (env.pathExists p = true → (env.isfile p || env.islink p) = true →
      env.writable p = false →
      delete_path env p = (env.pkexecOk p, [.pkexecRmF p])) ∧
    (env.pathExists p = true → (env.isfile p || env.islink p) = false →
      env.isdir p = true → env.writable p = false →
      delete_path env p = (env.pkexecOk p, [.pkexecRmRf p])) ∧
    (env.pathExists p = true →
      ((env.isfile p || env.islink p) = true ∨
        ((env.isfile p || env.islink p) = false ∧ env.isdir p = true)) →
      env.writable p = true → env.direct p = .permError →
      (delete_path env p).1 = env.pkexecOk p ∧
      ((delete_path env p).2.filter isEscalation).length = 1) := by
  refine ⟨?_, ?_, ?_, ?_, ?_, ?_⟩
  · intro h; simp [delete_path, h]
  · intro h1 h2 h3 h4; simp [delete_path, h1, h2, h3, h4]
  · intro h1 h2 h3 h4 h5; simp [delete_path, h1, h2, h3, h4, h5]
  · intro h1 h2 h3; simp [delete_path, h1, h2, h3]
  · intro h1 h2 h3 h4; simp [delete_path, h1, h2, h3, h4]
  · intro h1 h2 h3 h4
    rcases h2 with h2 | ⟨h2, h2d⟩
    · cases hf : env.isfile p
      · have hl : env.islink p = true := by simp_all
        simp [delete_path, h1, h2, h3, h4, hf, hl, isEscalation, List.filter]
      · simp [delete_path, h1, h2, h3, h4, hf, isEscalation, List.filter]
    · have hf : env.isfile p = false := by simp_all
      have hl : env.islink p = false := by simp_all
      simp [delete_path, h1, h2, h2d, h3, h4, hf, hl, isEscalation, List.filter]

/-- Environment for the C1 witness: an existing writable regular file whose
direct unlink raises PermissionError, with pkexec succeeding. -/
def c1Env : DeleteEnv :=
  { pathExists := fun _ => true
    isfile := fun _ => true
    islink := fun _ => false
    isdir := fun _ => false
    writable := fun _ => true
    direct := fun _ => .permError
    pkexecOk := fun _ => true }

/-- Witness for C1 at a concrete path: the permission failure escalates
exactly once and the escalation's success is returned. -/
theorem c1_delete_path_witness :
    (delete_path c1Env "/etc/foo.conf").1 = c1Env.pkexecOk "/etc/foo.conf" ∧
    ((delete_path c1Env "/etc/foo.conf").2.filter isEscalation).length = 1 :=
  (c1_delete_path c1Env "/etc/foo.conf").2.2.2.2.2 rfl (Or.inl rfl) rfl rfl

/-! ## Claim C2: ResidueScanner._generate_keywords -/

/-- C2 counterexample: for the identifier "foo-bar" the generated keyword
set contains the separator-stripped variant "foobar" but not its upper-case
form "FOOBAR", so the set is not closed over case variants of the
separator-stripped form as the claim states. -/
theorem c2_keywords_counterexample :
    "foobar" ∈ generate_keywords "foo-bar" ∧
    pyUpper "foobar" = "FOOBAR" ∧
    "FOOBAR" ∉ generate_keywords "foo-bar" := by decide

/-- C2 amended: for identifier "foo-bar" the deduplicated keyword set
contains "foo-bar", "foobar", "foo bar" and the upper-case forms of the raw
identifier and of the space-substituted display variant (their lower-case
forms coincide with members already listed); the upper-case form of the
separator-stripped variant is not generated. -/
theorem c2_keywords_amended :
    "foo-bar" ∈ generate_keywords "foo-bar" ∧
    "foobar" ∈ generate_keywords "foo-bar" ∧
    "foo bar" ∈ generate_keywords "foo-bar" ∧
    "FOO-BAR" ∈ generate_keywords "foo-bar" ∧
    "FOO BAR" ∈ generate_keywords "foo-bar" ∧
    pyLower "foo-bar" ∈ generate_keywords "foo-bar" ∧
    pyLower "foobar" ∈ generate_keywords "foo-bar" ∧
    pyLower "foo bar" ∈ generate_keywords "foo-bar" ∧
    (generate_keywords "foo-bar").Nodup ∧
    "FOOBAR" ∉ generate_keywords "foo-bar" := by decide

/-! ## Claim C9: Cleaner.clean -/

/-- The clean loop never changes the success flag carried by its
accumulator. -/
lemma cleanLoop_success (env : DeleteEnv) (n : Nat) :
    ∀ (fs : List ResidueFile) (i : Nat) (acc : CleanResult),
      (cleanLoop env n fs i acc).success = acc.success := by
  intro fs
  induction fs with
  | nil => intro i acc; rfl
  | cons f rest ih =>
    intro i acc
    simp only [cleanLoop]
    split <;> simp [ih]

/-- Every selected file is accounted for by the clean loop: each iteration
increments either the deleted counter or the error list, never aborting. -/
lemma cleanLoop_processed (env : DeleteEnv) (n : Nat) :
    ∀ (fs : List ResidueFile) (i : Nat) (acc : CleanResult),
      (cleanLoop env n fs i acc).deleted_files + (cleanLoop env n fs i acc).errors.length
        = acc.deleted_files + acc.errors.length + fs.length := by
  intro fs
  induction fs with
  | nil => intro i acc; simp [cleanLoop]
  | cons f rest ih =>
    intro i acc
    simp only [cleanLoop]
    split <;> rw [ih] <;> simp <;> omega

/-- C9: clean always returns True as its success flag; an empty selection
yields (True, 0, 0) with no progress, no errors and no filesystem
operations; and every selected file is either counted as deleted or
reported through the error callback, so per-file failures never abort the
batch. -/
theorem c9_clean_always_succeeds (env : DeleteEnv) (files : List ResidueFile) :
    (cleanFiles env files).success = true ∧
    (files.filter (fun f => f.is_selected) = [] →
      cleanFiles env files =
        { success := true, deleted_files := 0, deleted_size := 0,
          progress := [], errors := [], actions := [] }) ∧
    (cleanFiles env files).deleted_files + (cleanFiles env files).errors.length
      = (files.filter (fun f => f.is_selected)).length := by
  refine ⟨?_, ?_, ?_⟩
  · simp only [cleanFiles]
    split
    · rfl
    · simp [cleanLoop_success]
  · intro h; simp [cleanFiles, h]
  · simp only [cleanFiles]
    split
    · rename_i h
      have hnil : List.filter (fun f => f.is_selected) files = [] := by
        rw [List.filter_eq_nil_iff]
        intro a ha
        simp_all
      simp [hnil]
    · simp [cleanLoop_processed]

/-- Environment for the C9 witness: every path exists as an unwritable file
and pkexec fails, so every individual deletion fails. -/
def c9Env : DeleteEnv :=
  { pathExists := fun _ => true
    isfile := fun _ => true
    islink := fun _ => false
    isdir := fun _ => false
    writable := fun _ => false
    direct := fun _ => .ok
    pkexecOk := fun _ => false }

/-- A selected residue file used by the C9 witness. -/
def c9File : ResidueFile :=
  { path := "/etc/foo.conf", size := 12, size_str := "12 B", type := .CONFIG }

/-- Witness for C9: on an empty list clean returns the untouched (True,0,0)
result, and with one selected file whose deletion fails the success flag is
still true while the failure shows up only in the error count. -/
theorem c9_clean_always_succeeds_witness :
    cleanFiles c9Env [] =
      { success := true, deleted_files := 0, deleted_size := 0,
        progress := [], errors := [], actions := [] } ∧
    (cleanFiles c9Env [c9File]).success = true ∧
    (cleanFiles c9Env [c9File]).deleted_files + (cleanFiles c9Env [c9File]).errors.length
      = ([c9File].filter (fun f => f.is_selected)).length :=
  ⟨(c9_clean_always_succeeds c9Env []).2.1 (by decide),
   (c9_clean_always_succeeds c9Env [c9File]).1,
   (c9_clean_always_succeeds c9Env [c9File]).2.2⟩

/-! ## Claim C7: PackageScanner.scan_all progress stream -/

/-- A scan environment on a host with no package tooling and no AppImage
directories: every source contributes zero packages. -/
def c7Env : ScanEnv :=
  { dpkgQueryOk := false
    dpkgQueryLines := []
    installDates := fun _ => none
    snapAvailable := false
    snapListOk := false
    snapLines := []
    flatpakAvailable := false
    flatpakListOk := false
    flatpakLines := []
    appimageListing := fun _ => none
    home := "/root"
    fmtSize := fun _ => "" }

/-- C7 counterexample: with exactly two requested sources the claim
partitions 0-100 evenly, so the first source's completion report would
carry percent 100 / 2 = 50; the code reports the hard-coded 25 instead. -/
theorem c7_progress_counterexample :
    (scan_all true c7Env (some [.APT, .SNAP])).2.getD 1 ("", 0) = ("APT: 0 个软件", 25) ∧
    (25 : Nat) ≠ 100 / 2 := by decide

/-- C7 amended: the progress percentages of scan_all are fixed per source
regardless of how many sources are requested: the APT phase reports 0 then
25, Snap 25 then 50, Flatpak 50 then 75, AppImage 75 then 95, and scan
completion reports 100; a source absent from the request contributes no
events at all. -/
theorem c7_progress_amended (skip : Bool) (env : ScanEnv) (sources : List PackageSource) :
    (scan_all skip env (some sources)).2.map Prod.snd =
      (if PackageSource.APT ∈ sources then [0, 25] else []) ++
      (if PackageSource.SNAP ∈ sources then [25, 50] else []) ++
      (if PackageSource.FLATPAK ∈ sources then [50, 75] else []) ++
      (if PackageSource.APPIMAGE ∈ sources then [75, 95] else []) ++ [100] ∧
    (scan_all skip env none).2.map Prod.snd = [0, 25, 25, 50, 50, 75, 75, 95, 100] := by
  constructor
  · by_cases h1 : PackageSource.APT ∈ sources <;>
      by_cases h2 : PackageSource.SNAP ∈ sources <;>
        by_cases h3 : PackageSource.FLATPAK ∈ sources <;>
          by_cases h4 : PackageSource.APPIMAGE ∈ sources <;>
            simp [scan_all, h1, h2, h3, h4]
  · simp [scan_all]

/-! ## Claim C3: Uninstaller.force_remove_package -/

/-- A path of the dpkg -L listing that force_remove_package counts as
deleted: a regular file, or a directory whose (successful) listing is
empty. -/
def forceDeletable (env : ForceEnv) (p : String) : Bool :=
  env.isfile p || (env.isdir p && env.listdirOk p && env.listdirEmpty p)

/-- The privileged commands force_remove_package issues for one listed
path. -/
def forceActsFor (env : ForceEnv) (p : String) : List ForceAction :=
  if env.isfile p then [.pkexecRmF p]
  else if env.isdir p && env.listdirOk p && env.listdirEmpty p then [.pkexecRmdir p]
  else []

/-- Unrolling of the per-path deletion loop of force_remove_package. -/
lemma forceStep_foldl (env : ForceEnv) :
    ∀ (l : List String) (n : Nat) (acts : List ForceAction),
      l.foldl (forceStep env) (n, acts)
        = (n + (l.filter (forceDeletable env)).length, acts ++ l.flatMap (forceActsFor env)) := by
  intro l
  induction l with
  | nil => intro n acts; simp
  | cons p rest ih =>
    intro n acts
    by_cases hf : env.isfile p
    · simp [List.foldl_cons, forceStep, hf, ih, forceDeletable, forceActsFor]
      omega
    · by_cases hd : env.isdir p
      · by_cases hk : env.listdirOk p
        · by_cases he : env.listdirEmpty p
          · simp [List.foldl_cons, forceStep, hf, hd, hk, he, ih, forceDeletable, forceActsFor]
            omega
          · simp [List.foldl_cons, forceStep, hf, hd, hk, he, ih, forceDeletable, forceActsFor]
        · simp [List.foldl_cons, forceStep, hf, hd, hk, ih, forceDeletable, forceActsFor]
      · simp [List.foldl_cons, forceStep, hf, hd, ih, forceDeletable, forceActsFor]

/-- C3: force removal of a non-APT package fails without issuing any
command; for an APT package it always reports success, issues one
privileged rm per regular file and one privileged rmdir per empty listed
directory (non-empty directories are left untouched), followed by the
forced dpkg deregistration, and the reported deleted-count is the number of
listed paths that are regular files or empty directories. -/
theorem c3_force_remove (pkg : Package) (env : ForceEnv) :
    (pkg.source ≠ PackageSource.APT →
      force_remove_package pkg env = ((false, "强制卸载仅支持 APT 包"), 0, [])) ∧
    (pkg.source = PackageSource.APT →
      (force_remove_package pkg env).1.1 = true ∧
      (force_remove_package pkg env).2.1
        = (if env.dpkgListOk then (env.dpkgFiles.filter (forceDeletable env)).length else 0) ∧
      (force_remove_package pkg env).2.2
        = (if env.dpkgListOk then env.dpkgFiles.flatMap (forceActsFor env) else [])
          ++ [.dpkgForceRemove pkg.name]) := by
  constructor
  · intro h; simp [force_remove_package, h]
  · intro h
    by_cases hk : env.dpkgListOk <;>
      simp [force_remove_package, h, hk, forceStep_foldl]

/-- The dpkg -L listing used by the C3 witness: one regular file and one
non-empty directory. -/
def c3Env : ForceEnv :=
  { dpkgListOk := true
    dpkgFiles := ["/usr/bin/f", "/usr/share/d"]
    isfile := fun p => p = "/usr/bin/f"
    isdir := fun p => p = "/usr/share/d"
    listdirOk := fun _ => true
    listdirEmpty := fun _ => false }

/-- The APT package used by the C3 witness. -/
def c3Pkg : Package :=
  { name := "pkg", display_name := "Pkg", version := "1", size := "1.0 KB"
    source := .APT, install_date := "未知", description := "" }

/-- Witness for C3, the end-to-end scenario of the claim: one regular file
plus one non-empty directory gives exactly one privileged file deletion, no
action on the directory, deleted-count 1, then deregistration, with
success reported. -/
theorem c3_force_remove_witness :
    (force_remove_package c3Pkg c3Env).1.1 = true ∧
    (force_remove_package c3Pkg c3Env).2.1 = 1 ∧
    (force_remove_package c3Pkg c3Env).2.2
      = [.pkexecRmF "/usr/bin/f", .dpkgForceRemove "pkg"] := by
  have h := (c3_force_remove c3Pkg c3Env).2 rfl
  refine ⟨h.1, ?_, ?_⟩
  · rw [h.2.1]; decide
  · rw [h.2.2]; decide

/-! ## Claim C4: PackageScanner system-package allow-list -/

/-- Enabling skip_system_packages filters one parsed dpkg-query record by
the allow-list and changes nothing else. -/
lemma scanAptLine_skip_filter (env : ScanEnv) (line : String) :
    scanAptLine true env line
      = (scanAptLine false env line).filter (fun p => !(SYSTEM_PACKAGES.contains p.name)) := by
  simp only [scanAptLine]
  split
  · rfl
  split
  · split
    · by_cases h : ((pySplitCh line '|')[0]?.getD "") ∈ SYSTEM_PACKAGES <;>
        simp [h, List.filter]
    · rfl
  · rfl

/-- C4: the inventory's APT scan with skip_system_packages enabled returns
exactly the packages of the unfiltered scan whose identifier is outside the
static allow-list; consequently an allow-listed identifier such as
"base-files" never appears when the option is enabled, identifiers outside
the list are unaffected by the option, and the allow-list does contain
"base-files". -/
theorem c4_system_package_policy (env : ScanEnv) :
    scan_apt true env
      = (scan_apt false env).filter (fun p => !(SYSTEM_PACKAGES.contains p.name)) ∧
    (∀ name, name ∈ SYSTEM_PACKAGES →
      name ∉ (scan_apt true env).map Package.name) ∧
    "base-files" ∈ SYSTEM_PACKAGES := by
  have hfil : scan_apt true env
      = (scan_apt false env).filter (fun p => !(SYSTEM_PACKAGES.contains p.name)) := by
    simp only [scan_apt]
    split
    · rw [List.filter_flatMap]
      exact List.flatMap_congr (fun line _ => scanAptLine_skip_filter env line)
    · rfl
  refine ⟨hfil, ?_, by decide⟩
  intro name hname hmem
  rw [hfil] at hmem
  simp only [List.mem_map, List.mem_filter] at hmem
  obtain ⟨p, ⟨_, hp⟩, hpname⟩ := hmem
  rw [hpname] at hp
  simp at hp
  exact hp hname

/-- The dpkg-query output used by the C4 witness: an installed allow-listed
package and an installed ordinary package. -/
def c4Env : ScanEnv :=
  { dpkgQueryOk := true
    dpkgQueryLines := ["base-files|13.5|1024|install ok installed",
                       "wget|1.21|980|install ok installed"]
    installDates := fun _ => none
    snapAvailable := false
    snapListOk := false
    snapLines := []
    flatpakAvailable := false
    flatpakListOk := false
    flatpakLines := []
    appimageListing := fun _ => none
    home := "/root"
    fmtSize := fun _ => "" }

/-- Witness for C4: on the concrete dpkg-query output, the allow-listed
"base-files" is excluded when skipping is enabled, included when disabled,
and the ordinary "wget" appears either way. -/
theorem c4_system_package_policy_witness :
    "base-files" ∉ (scan_apt true c4Env).map Package.name ∧
    "base-files" ∈ (scan_apt false c4Env).map Package.name ∧
    "wget" ∈ (scan_apt true c4Env).map Package.name ∧
    "wget" ∈ (scan_apt false c4Env).map Package.name :=
  ⟨(c4_system_package_policy c4Env).2.1 "base-files" (by decide),
   by decide, by decide, by decide⟩

/-! ## Claim C10: _scan_appimage never yields a package -/

/-- The per-directory AppImage loop never extends its accumulator: the
construction of every would-be package raises the TypeError modelled by
mkAppimagePackage. -/
lemma scanAppimageDir_acc (p : String) :
    ∀ (files : List String) (acc : List Package), scanAppimageDir p files acc = acc := by
  intro files
  induction files with
  | nil => intro acc; rfl
  | cons f rest ih =>
    intro acc
    simp only [scanAppimageDir, mkAppimagePackage]
    split
    · rfl
    · exact ih acc

/-- Every package parsed from one dpkg-query line carries the APT source
tag. -/
lemma scanAptLine_source (skip : Bool) (env : ScanEnv) (line : String) (p : Package)
    (h : p ∈ scanAptLine skip env line) : p.source = PackageSource.APT := by
  simp only [scanAptLine] at h
  repeat' split at h
  all_goals simp_all

/-- Every package returned by the APT scan carries the APT source tag. -/
lemma scan_apt_source (skip : Bool) (env : ScanEnv) (p : Package)
    (h : p ∈ scan_apt skip env) : p.source = PackageSource.APT := by
  simp only [scan_apt] at h
  split at h
  · obtain ⟨line, _, hline⟩ := List.mem_flatMap.mp h
    exact scanAptLine_source skip env line p hline
  · cases h

/-- Every package returned by the Snap scan carries the Snap source tag. -/
lemma scan_snap_source (env : ScanEnv) (p : Package)
    (h : p ∈ scan_snap env) : p.source = PackageSource.SNAP := by
  simp only [scan_snap] at h
  repeat' split at h
  · cases h
  · cases h
  · obtain ⟨line, _, hline⟩ := List.mem_flatMap.mp h
    repeat' split at hline
    all_goals simp_all

/-- Every package returned by the Flatpak scan carries the Flatpak source
tag. -/
lemma scan_flatpak_source (env : ScanEnv) (p : Package)
    (h : p ∈ scan_flatpak env) : p.source = PackageSource.FLATPAK := by
  simp only [scan_flatpak] at h
  repeat' split at h
  · cases h
  · cases h
  · obtain ⟨line, _, hline⟩ := List.mem_flatMap.mp h
    repeat' split at hline
    all_goals simp_all

/-- C10: the AppImage inventory scan returns the empty list for every
filesystem state, because constructing its Package passes the undeclared
app_name keyword and the resulting TypeError is swallowed per search
directory; consequently no inventory scan ever contains an
AppImage-sourced package. -/
theorem c10_appimage_scan_empty (env : ScanEnv) (skip : Bool)
    (sources : Option (List PackageSource)) :
    scan_appimage env = [] ∧
    (scan_all skip env sources).1.filter (fun p => p.source = PackageSource.APPIMAGE) = [] := by
  have hempty : scan_appimage env = [] := by
    simp only [scan_appimage, List.foldl_cons, List.foldl_nil]
    cases h1 : env.appimageListing (env.home ++ "/Applications") <;>
      cases h2 : env.appimageListing (env.home ++ "/.local/bin") <;>
        cases h3 : env.appimageListing "/opt" <;>
          simp [h1, h2, h3, scanAppimageDir_acc]
  refine ⟨hempty, ?_⟩
  rw [List.filter_eq_nil_iff]
  intro p hp
  have hsrc : p.source ≠ PackageSource.APPIMAGE := by
    simp only [scan_all, hempty, List.mem_append, List.append_nil] at hp
    have h4 : p ∈ scan_apt skip env ∨ p ∈ scan_snap env ∨ p ∈ scan_flatpak env := by
      rcases hp with ((ha | hb) | hc) | hd
      · split at ha
        · exact Or.inl ha
        · cases ha
      · split at hb
        · exact Or.inr (Or.inl hb)
        · cases hb
      · split at hc
        · exact Or.inr (Or.inr hc)
        · cases hc
      · split at hd <;> cases hd
    rcases h4 with h | h | h
    · rw [scan_apt_source skip env p h]; decide
    · rw [scan_snap_source env p h]; decide
    · rw [scan_flatpak_source env p h]; decide
  simpa using hsrc

/-! ## Claim C5: ResidueScanner._get_dir_size -/

/-- The joined paths of the non-symlink regular files with readable sizes
among an os.walk output: exactly the files the claim says contribute to a
directory's size. -/
def goodFilePaths (env : FsEnv) (entries : List WalkEntry) : List String :=
  entries.flatMap (fun e =>
    (e.files.map (pyJoin e.root)).filter
      (fun p => env.isfile p && !env.islink p && env.getsizeOk p))

/-- The (dirpath, filename) pairs of an os.walk output, used to compare two
traversal orders of the same tree. -/
def walkPairs (entries : List WalkEntry) : List (String × String) :=
  entries.flatMap (fun e => e.files.map (fun f => (e.root, f)))

/-- One walk entry's size sum, re-expressed over the filtered good files. -/
lemma filesSum_eq_good (env : FsEnv) (root : String) (files : List String) :
    (files.map (fileContrib env root)).sum
      = (((files.map (pyJoin root)).filter
          (fun p => env.isfile p && !env.islink p && env.getsizeOk p)).map env.getsize).sum := by
  induction files with
  | nil => rfl
  | cons f rest ih =>
    by_cases h : env.isfile (pyJoin root f) && !env.islink (pyJoin root f)
        && env.getsizeOk (pyJoin root f)
    · simp only [List.map_cons, List.sum_cons, List.filter_cons]
      rw [ih]
      simp [fileContrib, h]
    · simp only [List.map_cons, List.sum_cons, List.filter_cons]
      rw [ih]
      have hz : fileContrib env root f = 0 := by
        simp only [fileContrib]
        split <;> simp_all
      simp [hz, h]

/-- The directory size equals the contribution sum over the flattened
(dirpath, filename) pairs. -/
lemma get_dir_size_from_pairs (env : FsEnv) (entries : List WalkEntry) :
    get_dir_size_from env entries
      = ((walkPairs entries).map (fun rf => fileContrib env rf.1 rf.2)).sum := by
  induction entries with
  | nil => rfl
  | cons e rest ih =>
    simp only [get_dir_size_from, walkPairs, List.map_cons, List.sum_cons,
      List.flatMap_cons, List.map_append, List.sum_append] at *
    rw [ih, List.map_map]
    rfl

/-- The directory size equals the good-file size sum, entry by entry. -/
lemma get_dir_size_from_good (env : FsEnv) (entries : List WalkEntry) :
    get_dir_size_from env entries = ((goodFilePaths env entries).map env.getsize).sum := by
  induction entries with
  | nil => rfl
  | cons e rest ih =>
    simp only [get_dir_size_from, goodFilePaths, List.map_cons, List.sum_cons,
      List.flatMap_cons, List.map_append, List.sum_append] at *
    rw [filesSum_eq_good, ih]

/-- C5: the size computed for a directory equals the sum of the sizes of
the non-symlink regular files transitively listed under it, entries whose
size read fails contribute zero instead of aborting, and the computed value
is invariant under any reordering of the os.walk traversal. -/
theorem c5_dir_size (env : FsEnv) (d : String) (entries₁ entries₂ : List WalkEntry)
    (hperm : (walkPairs entries₁).Perm (walkPairs entries₂)) :
    get_dir_size env d = ((goodFilePaths env (env.walk d)).map env.getsize).sum ∧
    get_dir_size_from env entries₁ = get_dir_size_from env entries₂ := by
  constructor
  · exact get_dir_size_from_good env (env.walk d)
  · rw [get_dir_size_from_pairs, get_dir_size_from_pairs]
    exact List.Perm.sum_eq (hperm.map _)

/-- Filesystem facts for the C5 witness: a directory with a regular file,
a symlink and an unreadable file spread over two walk levels. -/
def c5Env : FsEnv :=
  { pathExists := fun _ => true
    walk := fun _ => []
    isfile := fun _ => true
    islink := fun p => p = "/opt/app/link"
    getsizeOk := fun p => !(p = "/opt/app/sub/bad")
    getsize := fun p => if p = "/opt/app/a.dat" then 100 else if p = "/opt/app/sub/b.dat" then 12 else 7
    fmtSize := fun _ => "" }

/-- One traversal order of the C5 witness tree. -/
def c5Walk1 : List WalkEntry :=
  [⟨"/opt/app", ["sub"], ["a.dat", "link"]⟩, ⟨"/opt/app/sub", [], ["b.dat", "bad"]⟩]

/-- The same tree walked with each directory's file list reversed. -/
def c5Walk2 : List WalkEntry :=
  [⟨"/opt/app", ["sub"], ["link", "a.dat"]⟩, ⟨"/opt/app/sub", [], ["bad", "b.dat"]⟩]

/-- Witness for C5: on the concrete tree both traversal orders give 112
bytes, counting only the two readable regular files. -/
theorem c5_dir_size_witness :
    get_dir_size_from c5Env c5Walk1 = get_dir_size_from c5Env c5Walk2 ∧
    get_dir_size_from c5Env c5Walk1 = 112 :=
  ⟨(c5_dir_size c5Env "/opt/app" c5Walk1 c5Walk2 (by decide)).2, by decide⟩

/-! ## Claim C6: ResidueScanner.scan ordering and selection -/

/-- The lexicographic character comparison is asymmetric. -/
lemma charListLt_asymm : ∀ l m : List Char, charListLt l m = true → charListLt m l = false := by
  intro l
  induction l with
  | nil =>
    intro m h
    cases m with
    | nil => simp [charListLt] at h
    | cons b bs => simp [charListLt]
  | cons a as ih =>
    intro m h
    cases m with
    | nil => simp [charListLt] at h
    | cons b bs =>
      simp only [charListLt] at h ⊢
      by_cases hab : a < b
      · simp [hab, lt_asymm hab]
      · by_cases hba : b < a
        · simp [hab, hba] at h
        · simp only [hab, hba, if_false] at h ⊢
          simp [ih bs h]

/-- The lexicographic character comparison is irreflexive. -/
lemma charListLt_irrefl (l : List Char) : charListLt l l = false := by
  cases h : charListLt l l
  · rfl
  · have := charListLt_asymm l l h
    rw [h] at this
    cases this

/-- The lexicographic character comparison is transitive. -/
lemma charListLt_trans : ∀ l m n : List Char,
    charListLt l m = true → charListLt m n = true → charListLt l n = true := by
  intro l
  induction l with
  | nil =>
    intro m n h1 h2
    cases m with
    | nil => simp [charListLt] at h1
    | cons b bs =>
      cases n with
      | nil => simp [charListLt] at h2
      | cons c cs => simp [charListLt]
  | cons a as ih =>
    intro m n h1 h2
    cases m with
    | nil => simp [charListLt] at h1
    | cons b bs =>
      cases n with
      | nil => simp [charListLt] at h2
      | cons c cs =>
        simp only [charListLt] at h1 h2 ⊢
        by_cases hab : a < b
        · by_cases hbc : b < c
          · simp [lt_trans hab hbc]
          · by_cases hcb : c < b
            · simp [hbc, hcb] at h2
            · have hb : b = c := le_antisymm (not_lt.mp hcb) (not_lt.mp hbc)
              subst hb
              simp [hab]
        · by_cases hba : b < a
          · simp [hab, hba] at h1
          · have ha : a = b := le_antisymm (not_lt.mp hba) (not_lt.mp hab)
            subst ha
            rw [if_neg hab, if_neg hab] at h1
            by_cases hac : a < c
            · simp [hac]
            · by_cases hca : c < a
              · simp [hac, hca] at h2
              · have hc : a = c := le_antisymm (not_lt.mp hca) (not_lt.mp hac)
                subst hc
                rw [if_neg hac, if_neg hac] at h2
                rw [if_neg hac, if_neg hac]
                exact ih bs cs h1 h2

/-- Two character lists that each fail to compare strictly below the other
are equal. -/
lemma charListLt_connex : ∀ l m : List Char,
    charListLt l m = false → charListLt m l = false → l = m := by
  intro l
  induction l with
  | nil =>
    intro m h1 _
    cases m with
    | nil => rfl
    | cons b bs => simp [charListLt] at h1
  | cons a as ih =>
    intro m h1 h2
    cases m with
    | nil => simp [charListLt] at h2
    | cons b bs =>
      simp only [charListLt] at h1 h2
      by_cases hab : a < b
      · simp [hab] at h1
      · by_cases hba : b < a
        · simp [hab, hba] at h2
        · have ha : a = b := le_antisymm (not_lt.mp hba) (not_lt.mp hab)
          subst ha
          simp only [if_neg (lt_irrefl a)] at h1 h2
          rw [ih bs h1 h2]

/-- The reflexive comparison is the negation of the reversed strict one. -/
lemma charListLe_eq_not_lt : ∀ l m : List Char, charListLe l m = !charListLt m l := by
  intro l
  induction l with
  | nil =>
    intro m
    cases m <;> simp [charListLe, charListLt]
  | cons a as ih =>
    intro m
    cases m with
    | nil => simp [charListLe, charListLt]
    | cons b bs =>
      simp only [charListLe, charListLt]
      by_cases hab : a < b
      · simp [hab, lt_asymm hab]
      · by_cases hba : b < a
        · simp [hab, hba]
        · simp [hab, hba, ih bs]

/-- Equal string data means equal strings. -/
lemma strEqOfDataEq {s t : String} (h : s.data = t.data) : s = t := by
  cases s
  cases t
  exact congrArg String.mk h

/-- The residue sort order is total. -/
lemma residue_le_total (a b : ResidueFile) :
    residue_le a b = true ∨ residue_le b a = true := by
  simp only [residue_le, strLtB, strLeB, Bool.or_eq_true, Bool.and_eq_true, decide_eq_true_iff]
  cases h1 : charListLt a.type.value.data b.type.value.data
  · cases h2 : charListLt b.type.value.data a.type.value.data
    · have hv : a.type.value = b.type.value := strEqOfDataEq (charListLt_connex _ _ h1 h2)
      cases hp : charListLt b.path.data a.path.data
      · left
        right
        exact ⟨hv, by rw [charListLe_eq_not_lt, hp]; rfl⟩
      · right
        right
        refine ⟨hv.symm, ?_⟩
        rw [charListLe_eq_not_lt, charListLt_asymm _ _ hp]
        rfl
    · right
      left
      rfl
  · left
    left
    rfl

/-- The residue sort order is transitive. -/
lemma residue_le_trans (a b c : ResidueFile) (h1 : residue_le a b = true)
    (h2 : residue_le b c = true) : residue_le a c = true := by
  simp only [residue_le, strLtB, strLeB, Bool.or_eq_true, Bool.and_eq_true,
    decide_eq_true_iff] at h1 h2 ⊢
  rcases h1 with h1 | ⟨h1v, h1p⟩
  · rcases h2 with h2 | ⟨h2v, h2p⟩
    · exact Or.inl (charListLt_trans _ _ _ h1 h2)
    · left
      rw [← h2v]
      exact h1
  · rcases h2 with h2 | ⟨h2v, h2p⟩
    · left
      rw [h1v]
      exact h2
    · right
      refine ⟨h1v.trans h2v, ?_⟩
      rw [charListLe_eq_not_lt] at h1p h2p ⊢
      cases hca : charListLt c.path.data a.path.data
      · rfl
      · exfalso
        cases hab : charListLt a.path.data b.path.data
        · have hba : charListLt b.path.data a.path.data = false := by
            simpa using h1p
          have : a.path.data = b.path.data := charListLt_connex _ _ hab hba
          rw [this] at hca
          simp [hca] at h2p
        · have : charListLt c.path.data b.path.data = true :=
            charListLt_trans _ _ _ hca hab
          simp [this] at h2p

instance : IsTotal ResidueFile (fun a b => residue_le a b = true) :=
  ⟨residue_le_total⟩

instance : IsTrans ResidueFile (fun a b => residue_le a b = true) :=
  ⟨residue_le_trans⟩

/-- Every residue entry built by _scan_path has its selection flag set. -/
lemma scan_path_selected (env : FsEnv) (kw : List String) (base cat : String) :
    ∀ e ∈ scan_path env kw base cat, e.is_selected = true := by
  intro e he
  simp only [scan_path, List.mem_flatMap, List.mem_append, List.mem_map] at he
  obtain ⟨w, _, he⟩ := he
  rcases he with ⟨d, _, rfl⟩ | ⟨f, _, rfl⟩ <;> rfl

/-- Every collected residue entry has its selection flag set. -/
lemma residueCollect_selected (env : FsEnv) (home pkg : String) :
    ∀ e ∈ residueCollect env home pkg, e.is_selected = true := by
  intro e he
  simp only [residueCollect, List.mem_flatMap] at he
  obtain ⟨cp, _, he⟩ := he
  obtain ⟨p, _, he⟩ := he
  split at he
  · exact scan_path_selected env _ p cp.1 e he
  · cases he

/-- C6: the residue scan result is sorted by the (kind, path) key, so any
two entries of the same kind appear with the smaller path first, and every
returned entry has its selection flag set. -/
theorem c6_scan_sorted_selected (env : FsEnv) (home pkg : String) :
    ((residueScan env home pkg).Pairwise
      (fun a b => a.type = b.type → strLeB a.path b.path = true)) ∧
    (∀ e ∈ residueScan env home pkg, e.is_selected = true) := by
  constructor
  · have hs := List.sorted_insertionSort (fun a b : ResidueFile => residue_le a b = true)
      (residueCollect env home pkg)
    refine List.Pairwise.imp ?_ hs
    intro a b hr hab
    have hv : a.type.value = b.type.value := by rw [hab]
    simp only [residue_le, strLtB, strLeB, Bool.or_eq_true, Bool.and_eq_true,
      decide_eq_true_iff] at hr
    rcases hr with hr | ⟨_, hr⟩
    · rw [hv] at hr
      rw [charListLt_irrefl] at hr
      cases hr
    · exact hr
  · intro e he
    have hmem : e ∈ residueCollect env home pkg :=
      (List.perm_insertionSort (fun a b : ResidueFile => residue_le a b = true)
        (residueCollect env home pkg)).mem_iff.mp he
    exact residueCollect_selected env home pkg e hmem

/-- Filesystem facts for the C6 witness: /etc contains two matching files
and /var/log one, producing both a kind tie and distinct kinds. -/
def c6Env : FsEnv :=
  { pathExists := fun p => p = "/etc" || p = "/var/log"
    walk := fun p =>
      if p = "/etc" then [⟨"/etc", [], ["zapp.conf", "app.conf"]⟩]
      else if p = "/var/log" then [⟨"/var/log", [], ["app.log"]⟩]
      else []
    isfile := fun _ => true
    islink := fun _ => false
    getsizeOk := fun _ => true
    getsize := fun _ => 3
    fmtSize := fun _ => "" }

/-- Witness for C6: the concrete scan is sorted with the configuration-kind
tie ordered by path, and the concrete first entry carries a set selection
flag. -/
theorem c6_scan_sorted_selected_witness :
    ((residueScan c6Env "/root" "app").Pairwise
      (fun a b => a.type = b.type → strLeB a.path b.path = true)) ∧
    ({ path := "/var/log/app.log", size := 3, size_str := "", type := .LOG,
       is_selected := true, is_safe_to_delete := true } : ResidueFile).is_selected = true :=
  ⟨(c6_scan_sorted_selected c6Env "/root" "app").1,
   (c6_scan_sorted_selected c6Env "/root" "app").2
     { path := "/var/log/app.log", size := 3, size_str := "", type := .LOG,
       is_selected := true, is_safe_to_delete := true } (by decide)⟩

/-! ## Claim C8: AppNameResolver.get_app_name -/

/-- Every resolution that starts from a memoization miss ends by appending
the resolved name to the memoization cache. -/
lemma get_app_name_shape (o : String → Option DesktopInfo) (st : ResolverState) (p : String)
    (h : lookupA st.name_cache p = none) :
    ∃ v, get_app_name o st p = (v, { st with name_cache := st.name_cache ++ [(p, v)] }) := by
  simp only [get_app_name, h]
  repeat' split
  all_goals exact ⟨_, rfl⟩

/-- Appending a binding for a previously absent key makes it the lookup
result. -/
lemma lookupA_append_self (l : List (String × String)) (p v : String)
    (h : lookupA l p = none) : lookupA (l ++ [(p, v)]) p = some v := by
  simp only [lookupA, List.find?_append]
  have hf : l.find? (fun kv => kv.1 = p) = none := by
    cases hf : l.find? (fun kv => kv.1 = p)
    · rfl
    · rw [lookupA, hf] at h
      simp at h
  rw [hf]
  simp [List.find?]

/-- C8 counterexample: for identifier "vi" with a desktop cache holding the
single key "v-i" (whose hyphen-stripped form equals the stripped
identifier exactly) the claim's stage 3 would resolve to "Vim", but the
code requires the stripped identifier to have length at least 4 there, so
resolution falls through every cache stage and returns the title-cased
fallback "Vi". -/
theorem c8_resolution_counterexample :
    keyClean "v-i" = pyReplaceChar (pyReplaceChar (pyLower "vi") '-' "") '_' "" ∧
    (get_app_name (fun _ => none)
        { desktop_cache := [("v-i", { name := "Vim", name_zh := "" })], name_cache := [] }
        "vi").1 = "Vi" ∧
    "Vi" ≠ pickName { name := "Vim", name_zh := "" } := by decide

/-- C8 amended: display-name resolution tries, in order and returning at
the first match: (1) exact cache-key lookup of the stripped identifier;
(2) the driver file-list lookup with on-demand parse; (3) only for stripped
identifiers of length at least 4, a cache key whose stripped form equals
the stripped identifier; (4) for length at least 3, substring match in
either direction; (5) a cache entry whose desktop name, lower-cased with
hyphens turned to spaces and underscores removed, equals the space-stripped
lower-cased reformatted identifier; (6) the reformatted (title-cased)
identifier as last resort; and every resolved name is memoized per
identifier, so a repeated call returns the cached value unchanged. -/
theorem c8_resolution_amended (o : String → Option DesktopInfo) (st : ResolverState)
    (p : String) :
    (∀ v, lookupA st.name_cache p = some v → get_app_name o st p = (v, st)) ∧
    (lookupA st.name_cache p = none →
      ∀ info, lookupA st.desktop_cache
          (pyReplaceChar (pyReplaceChar (pyLower p) '-' "") '_' "") = some info →
        (get_app_name o st p).1 = pickName info) ∧
    (lookupA st.name_cache p = none →
      lookupA st.desktop_cache
          (pyReplaceChar (pyReplaceChar (pyLower p) '-' "") '_' "") = none →
      ∀ info, o p = some info → (get_app_name o st p).1 = pickName info) ∧
    (lookupA st.name_cache p = none →
      lookupA st.desktop_cache
          (pyReplaceChar (pyReplaceChar (pyLower p) '-' "") '_' "") = none →
      o p = none →
      (pyReplaceChar (pyReplaceChar (pyLower p) '-' "") '_' "").length ≥ 4 →
      ∀ kv, st.desktop_cache.find?
          (fun kv => keyClean kv.1
            = pyReplaceChar (pyReplaceChar (pyLower p) '-' "") '_' "") = some kv →
        (get_app_name o st p).1 = pickName kv.2) ∧
    (lookupA st.name_cache p = none →
      lookupA st.desktop_cache
          (pyReplaceChar (pyReplaceChar (pyLower p) '-' "") '_' "") = none →
      o p = none →
      (if (pyReplaceChar (pyReplaceChar (pyLower p) '-' "") '_' "").length ≥ 4 then
          st.desktop_cache.find?
            (fun kv => keyClean kv.1
              = pyReplaceChar (pyReplaceChar (pyLower p) '-' "") '_' "")
        else none) = none →
      (pyReplaceChar (pyReplaceChar (pyLower p) '-' "") '_' "").length ≥ 3 →
      ∀ kv, st.desktop_cache.find?
          (fun kv => pyIn (pyReplaceChar (pyReplaceChar (pyLower p) '-' "") '_' "")
              (keyClean kv.1)
            || pyIn (keyClean kv.1)
              (pyReplaceChar (pyReplaceChar (pyLower p) '-' "") '_' "")) = some kv →
        (get_app_name o st p).1 = pickName kv.2) ∧
    (lookupA st.name_cache p = none →
      lookupA st.desktop_cache
          (pyReplaceChar (pyReplaceChar (pyLower p) '-' "") '_' "") = none →
      o p = none →
      (if (pyReplaceChar (pyReplaceChar (pyLower p) '-' "") '_' "").length ≥ 4 then
          st.desktop_cache.find?
            (fun kv => keyClean kv.1
              = pyReplaceChar (pyReplaceChar (pyLower p) '-' "") '_' "")
        else none) = none →
      (if (pyReplaceChar (pyReplaceChar (pyLower p) '-' "") '_' "").length ≥ 3 then
          st.desktop_cache.find?
            (fun kv => pyIn (pyReplaceChar (pyReplaceChar (pyLower p) '-' "") '_' "")
                (keyClean kv.1)
              || pyIn (keyClean kv.1)
                (pyReplaceChar (pyReplaceChar (pyLower p) '-' "") '_' ""))
        else none) = none →
      (∀ kv, st.desktop_cache.find?
          (fun kv => pyReplaceChar (pyLower (format_package_name p)) ' ' ""
            = desktopNameNorm kv.2) = some kv →
        (get_app_name o st p).1 = pickName kv.2) ∧
      (st.desktop_cache.find?
          (fun kv => pyReplaceChar (pyLower (format_package_name p)) ' ' ""
            = desktopNameNorm kv.2) = none →
        (get_app_name o st p).1 = format_package_name p)) ∧
    (lookupA (get_app_name o st p).2.name_cache p = some (get_app_name o st p).1 ∧
      get_app_name o (get_app_name o st p).2 p
        = ((get_app_name o st p).1, (get_app_name o st p).2)) := by
  refine ⟨?_, ?_, ?_, ?_, ?_, ?_, ?_⟩
  · intro v hv
    simp [get_app_name, hv]
  · intro hc info hinfo
    simp [get_app_name, hc, hinfo, cacheAndReturn]
  · intro hc h1 info hinfo
    simp [get_app_name, hc, h1, hinfo, cacheAndReturn]
  · intro hc h1 h2 hlen kv hkv
    simp [get_app_name, hc, h1, h2, hlen, hkv, cacheAndReturn]
  · intro hc h1 h2 h3 hlen kv hkv
    simp [get_app_name, hc, h1, h2, h3, hlen, hkv, cacheAndReturn]
  · intro hc h1 h2 h3 h4
    constructor
    · intro kv hkv
      simp only [get_app_name, hc, h1, h2]
      rw [h3, h4, hkv]
      simp [cacheAndReturn]
    · intro h5
      simp only [get_app_name, hc, h1, h2]
      rw [h3, h4, h5]
      simp [cacheAndReturn]
  · cases hm : lookupA st.name_cache p with
    | some v =>
      have hr : get_app_name o st p = (v, st) := by simp [get_app_name, hm]
      rw [hr]
      exact ⟨hm, by simp [get_app_name, hm]⟩
    | none =>
      obtain ⟨v, hv⟩ := get_app_name_shape o st p hm
      rw [hv]
      refine ⟨lookupA_append_self st.name_cache p v hm, ?_⟩
      simp [get_app_name, lookupA_append_self st.name_cache p v hm]

/-- Resolver state for the C8 witness: a desktop cache with an exact
stripped-key entry. -/
def c8St : ResolverState :=
  { desktop_cache := [("gimp", { name := "GNU Image Manipulation Program", name_zh := "" })]
    name_cache := [] }

/-- Witness for C8: the identifier "gimp" resolves through the exact
cache-key stage to the desktop entry's name. -/
theorem c8_resolution_amended_witness :
    (get_app_name (fun _ => none) c8St "gimp").1
      = pickName { name := "GNU Image Manipulation Program", name_zh := "" } :=
  (c8_resolution_amended (fun _ => none) c8St "gimp").2.1 (by decide)
    { name := "GNU Image Manipulation Program", name_zh := "" } (by decide)

end Jing
